import Mathlib

/-!
Shallow embedding of the conversation-state and persistence subsystem of
`src/app.py` (a Streamlit chat front-end over the Groq completion API with
a SQLite message store), together with proofs of the specification's
testable properties.

Modelling conventions:
* A chat message (Python dict `{"role": r, "content": c}`) is a `ChatMsg`.
* The SQLite database file `chat_history.db` is a `DbState`: the
  `chat_history` table is a list of `(id, role, content)` rows in rowid
  order, plus the AUTOINCREMENT counter.  `INSERT` appends a fresh row;
  a bare `SELECT role, content FROM chat_history` scans in rowid order;
  `DELETE FROM chat_history` empties the table (AUTOINCREMENT keeps the
  counter).
* Streamlit's `st.session_state.messages` is a `List ChatMsg` threaded
  explicitly through the event handlers.
* The Groq completion call is a parameter
  `gw : List ChatMsg → Except GatewayErr String`: the handler builds the
  transcript, passes it to `gw`, and branches on success/exception.
* Connection lifecycle (open/close on error paths) is modelled separately
  by the literal statement sequence of each Python function body under
  exception semantics (`execStmts`).
-/

/-- A chat message: the Python dict `{"role": r, "content": c}` used both in
`st.session_state.messages` and as the wire format of the completion call. -/
structure ChatMsg where
  role : String
  content : String
deriving DecidableEq, Repr

/-- State of the SQLite database `chat_history.db`: the `chat_history` table
`(id INTEGER PRIMARY KEY AUTOINCREMENT, role TEXT, content TEXT)` as its list
of rows in rowid order, the AUTOINCREMENT counter, and whether the table has
been created. -/
structure DbState where
  tableExists : Bool
  nextId : Nat
  rows : List (Nat × String × String)
deriving DecidableEq, Repr

/-- A fresh database file: no table yet, AUTOINCREMENT starts at 1. -/
def emptyDb : DbState := ⟨false, 1, []⟩

/-- `init_db()` — `CREATE TABLE IF NOT EXISTS chat_history …`: idempotently
ensures the table exists; never touches existing rows. -/
def init_db (db : DbState) : DbState :=
  { db with tableExists := true }

/-- `save_message(role, content)` — `INSERT INTO chat_history (role, content)
VALUES (?, ?)`: appends one row with the next AUTOINCREMENT id. -/
def save_message (db : DbState) (role content : String) : DbState :=
  { db with
      rows := db.rows ++ [(db.nextId, role, content)]
      nextId := db.nextId + 1 }

/-- `load_messages()` — `SELECT role, content FROM chat_history` followed by
`[{"role": r, "content": c} for r, c in messages]`: the rows in rowid
(insertion) order, projected to role/content dicts. -/
def load_messages (db : DbState) : List ChatMsg :=
  db.rows.map fun r => ⟨r.2.1, r.2.2⟩

/-- The greeting seeded when the loaded history is empty:
`{"role": "assistant", "content": "Hello! How can I help you today?"}`. -/
def helloGreeting : ChatMsg :=
  ⟨"assistant", "Hello! How can I help you today?"⟩

/-- The greeting seeded by the Clear Chat handler:
`{"role": "assistant", "content": "Chat cleared! How can I help now?"}`. -/
def clearedGreeting : ChatMsg :=
  ⟨"assistant", "Chat cleared! How can I help now?"⟩

/-- Session bootstrap at process start:
`st.session_state.messages = load_messages()` (key absent on a fresh run)
then `if not st.session_state.messages: st.session_state.messages =
[{"role": "assistant", "content": "Hello! How can I help you today?"}]`. -/
def bootstrapMessages (db : DbState) : List ChatMsg :=
  let loaded := load_messages db
  if loaded.isEmpty then [helloGreeting] else loaded

/-- Python `str.strip()`: drop leading and trailing whitespace characters. -/
def pyStrip (s : String) : String :=
  ⟨((s.data.dropWhile Char.isWhitespace).reverse.dropWhile
      Char.isWhitespace).reverse⟩

/-- Python slicing `s[:n]`: the first `n` characters of `s`, or all of `s`
when it is shorter. -/
def pySliceTo (s : String) (n : Nat) : String :=
  ⟨s.data.take n⟩

/-- The uploaded-file branch: `user_input = f"Summarize this text:\n{file_text[:4000]}"`. -/
def wrapDocumentText (file_text : String) : String :=
  "Summarize this text:\n" ++ pySliceTo file_text 4000

/-- The fixed system message prepended to every completion request:
`{"role": "system", "content": "You are a helpful and friendly assistant."}`. -/
def systemMessage : ChatMsg :=
  ⟨"system", "You are a helpful and friendly assistant."⟩

/-- Errors the `client.chat.completions.create` call may raise (caught by the
Send handler's `except Exception`). -/
inductive GatewayErr where
  | authError
  | requestError
deriving DecidableEq, Repr

/-- Outcome of one Send-button click: resulting database, resulting
`st.session_state.messages`, the `messages` argument passed to
`client.chat.completions.create` (`none` when no call was made), and whether
the empty-input warning was shown. -/
structure SendResult where
  db : DbState
  messages : List ChatMsg
  transcript : Option (List ChatMsg)
  warned : Bool
deriving DecidableEq, Repr

/-- The Send-button handler (`if st.button("Send"): …`):
empty-input guard `if not user_input.strip()`, else append the user message
to the session, persist it, call the gateway with
`[{"role": "system", …}, *st.session_state.messages]`, and on success append
and persist the reply; on exception only `st.error` runs. -/
def sendHandler (gw : List ChatMsg → Except GatewayErr String)
    (db : DbState) (msgs : List ChatMsg) (user_input : String) : SendResult :=
  if (pyStrip user_input).isEmpty then
    ⟨db, msgs, none, true⟩
  else
    let msgs1 := msgs ++ [⟨"user", user_input⟩]
    let db1 := save_message db "user" user_input
    let transcript := systemMessage :: msgs1
    match gw transcript with
    | .ok reply =>
        ⟨save_message db1 "assistant" reply,
         msgs1 ++ [⟨"assistant", reply⟩], some transcript, false⟩
    | .error _ =>
        ⟨db1, msgs1, some transcript, false⟩

/-- The Clear Chat handler: `DELETE FROM chat_history`, then
`st.session_state.messages = [{"role": "assistant", "content":
"Chat cleared! How can I help now?"}]`. -/
def clearChatHandler (db : DbState) : DbState × List ChatMsg :=
  ({ db with rows := [] }, [clearedGreeting])

/-- Python `str.upper()`: uppercase every character. -/
def pyUpper (s : String) : String :=
  ⟨s.data.map Char.toUpper⟩

/-- The Export Chat handler's projection:
`"\n\n".join([f"{m['role'].upper()}: {m['content']}" for m in st.session_state.messages])`. -/
def exportChat (msgs : List ChatMsg) : String :=
  String.intercalate "\n\n" (msgs.map fun m => pyUpper m.role ++ ": " ++ m.content)

/-- The Export Chat handler: reads only `st.session_state.messages`, never the
database, and produces the downloadable text. -/
def exportChatHandler (db : DbState) (msgs : List ChatMsg) : DbState × String :=
  (db, exportChat msgs)

/-! ### Event-level system model

The whole app state visible to the claims is the pair (database file,
`st.session_state.messages`).  A run of the process starts with `init_db()`
and the session bootstrap, then processes discrete UI events. -/

/-- Combined state: the on-disk database plus the in-memory conversation. -/
structure AppState where
  db : DbState
  messages : List ChatMsg
deriving DecidableEq, Repr

/-- One discrete UI event after startup.  A `send` event carries the typed
input and the outcome the completion endpoint would produce for this call
(the remote service is opaque, so its answer is part of the event). -/
inductive UiEvent where
  | send (outcome : Except GatewayErr String) (input : String)
  | clearChat
  | exportChatBtn
deriving Repr

/-- Process one UI event through the corresponding handler. -/
def applyEvent (s : AppState) : UiEvent → AppState
  | .send outcome input =>
      let r := sendHandler (fun _ => outcome) s.db s.messages input
      ⟨r.db, r.messages⟩
  | .clearChat =>
      let r := clearChatHandler s.db
      ⟨r.1, r.2⟩
  | .exportChatBtn =>
      ⟨(exportChatHandler s.db s.messages).1, s.messages⟩

/-- Process start on an existing database file `db0`, then a sequence of UI
events: `init_db()`, the session bootstrap, then the events in order. -/
def runEvents (db0 : DbState) (evs : List UiEvent) : AppState :=
  evs.foldl applyEvent ⟨init_db db0, bootstrapMessages (init_db db0)⟩

/-! ### Store-operation sequences (for the append-only property)

The operations the Message Store exposes, excluding reset/clear. -/

/-- One Message Store operation other than reset/clear. -/
inductive StoreOp where
  | initOp
  | saveOp (role content : String)
  | loadOp
deriving Repr

/-- Effect of one store operation on the database (`load_messages` is a pure
read and leaves the database unchanged). -/
def applyStoreOp (db : DbState) : StoreOp → DbState
  | .initOp => init_db db
  | .saveOp r c => save_message db r c
  | .loadOp => db

/-- Run a sequence of store operations. -/
def applyStoreOps (db : DbState) (ops : List StoreOp) : DbState :=
  ops.foldl applyStoreOp db

/-- The (role, content) pairs appended by a sequence of store operations, in
order. -/
def appendedMsgs (ops : List StoreOp) : List ChatMsg :=
  ops.filterMap fun
    | .saveOp r c => some ⟨r, c⟩
    | _ => none

/-! ### Connection lifecycle of the store operations

Each Python store function is a straight-line sequence of statements with no
`try`/`finally` and no `with` block; under Python exception semantics a raise
at statement `k` skips every later statement of the function.  The statement
lists below transcribe the bodies of `init_db`, `save_message`,
`load_messages` and the Clear Chat handler's database block. -/

/-- The database-relevant statements a store operation executes. -/
inductive SqlStep where
  | connectStep
  | cursorStep
  | executeStep
  | commitStep
  | fetchallStep
  | closeStep
deriving DecidableEq, Repr

/-- Body of `init_db()`: connect, cursor, execute CREATE, commit, close. -/
def init_db_steps : List SqlStep :=
  [.connectStep, .cursorStep, .executeStep, .commitStep, .closeStep]

/-- Body of `save_message(role, content)`: connect, cursor, execute INSERT,
commit, close. -/
def save_message_steps : List SqlStep :=
  [.connectStep, .cursorStep, .executeStep, .commitStep, .closeStep]

/-- Body of `load_messages()`: connect, cursor, execute SELECT, fetchall,
close. -/
def load_messages_steps : List SqlStep :=
  [.connectStep, .cursorStep, .executeStep, .fetchallStep, .closeStep]

/-- Database block of the Clear Chat handler: connect, cursor, execute DELETE,
commit, close. -/
def clear_chat_steps : List SqlStep :=
  [.connectStep, .cursorStep, .executeStep, .commitStep, .closeStep]

/-- The statements actually executed when the statement at position `k`
raises (statements before `k` completed; `k` and everything after it do not
complete); `none` is the fault-free run. -/
def execStmts (body : List SqlStep) (raiseAt : Option Nat) : List SqlStep :=
  match raiseAt with
  | none => body
  | some k => body.take k

/-- A run acquired the connection (`sqlite3.connect` completed). -/
def opensConn (executed : List SqlStep) : Bool :=
  executed.contains .connectStep

/-- A run released the connection (`conn.close()` completed). -/
def closesConn (executed : List SqlStep) : Bool :=
  executed.contains .closeStep

/-! ### Startup and the missing credential

Module-level code runs in order: `load_dotenv()`, `GROQ_KEY =
os.getenv("GROQ_API_KEY")`, `client = Groq(api_key=GROQ_KEY)`, and only then
the Streamlit page setup, `init_db()` and the session bootstrap. -/

/-- Error raised during module import. -/
inductive StartupErr where
  | groqNoApiKey
deriving DecidableEq, Repr

/-- The groq SDK client constructor: when `api_key` is `None` it falls back
to the `GROQ_API_KEY` environment variable (already folded into the argument
here, since the app passes `os.getenv("GROQ_API_KEY")`) and raises a
`GroqError` at construction time when none is available. -/
def groqConstruct (apiKey : Option String) : Except StartupErr Unit :=
  match apiKey with
  | none => .error .groqNoApiKey
  | some _ => .ok ()

/-- Module-level startup: construct the Groq client, then (only if that did
not raise) initialize the database and bootstrap the session. -/
def startupSequence (apiKey : Option String) (db0 : DbState) :
    Except StartupErr AppState :=
  match groqConstruct apiKey with
  | .error e => .error e
  | .ok _ =>
      let db1 := init_db db0
      .ok ⟨db1, bootstrapMessages db1⟩

/-! ## Helper lemmas -/

/-- `init_db` never changes the table contents. -/
theorem load_messages_init_db (db : DbState) :
    load_messages (init_db db) = load_messages db := rfl

/-- `save_message` appends exactly one message to the loaded history. -/
theorem load_messages_save (db : DbState) (r c : String) :
    load_messages (save_message db r c) = load_messages db ++ [⟨r, c⟩] := by
  simp [load_messages, save_message]

/-- Running a store-operation sequence appends exactly the saved messages,
in order, to whatever was already loaded. -/
theorem load_applyStoreOps (ops : List StoreOp) :
    ∀ db : DbState,
      load_messages (applyStoreOps db ops) = load_messages db ++ appendedMsgs ops := by
  induction ops with
  | nil =>
      intro db
      simp [applyStoreOps, appendedMsgs]
  | cons op ops ih =>
      intro db
      cases op with
      | initOp =>
          have h1 : applyStoreOps db (.initOp :: ops) = applyStoreOps (init_db db) ops := rfl
          rw [h1, ih, load_messages_init_db]
          simp [appendedMsgs]
      | saveOp r c =>
          have h1 : applyStoreOps db (.saveOp r c :: ops)
              = applyStoreOps (save_message db r c) ops := rfl
          rw [h1, ih, load_messages_save]
          simp [appendedMsgs]
      | loadOp =>
          have h1 : applyStoreOps db (.loadOp :: ops) = applyStoreOps db ops := rfl
          rw [h1, ih]
          simp [appendedMsgs]

/-! ## C1 -/

/-- C1: for every sequence of store operations containing no reset/clear,
`load_messages` afterwards returns exactly the appended (role, content)
pairs of the sequence, oldest first in insertion order, appended to the
prior contents — starting from a fresh database, exactly the N appended
messages with no reordering and no loss. -/
theorem append_only_loadAll (ops : List StoreOp) (db : DbState) :
    load_messages (applyStoreOps db ops) = load_messages db ++ appendedMsgs ops
    ∧ load_messages (applyStoreOps (init_db emptyDb) ops) = appendedMsgs ops
    ∧ (load_messages (applyStoreOps (init_db emptyDb) ops)).length
        = (appendedMsgs ops).length := by
  refine ⟨load_applyStoreOps ops db, ?_, ?_⟩
  · rw [load_applyStoreOps ops (init_db emptyDb)]
    rfl
  · rw [load_applyStoreOps ops (init_db emptyDb)]
    rfl

/-! ## C3 -/

/-- C3: when the completion call fails after the user message was persisted,
the store afterwards contains exactly the prior contents plus that user
message — the user message is present, no assistant message was added for the
turn, and nothing was rolled back; the in-memory conversation likewise ends
with the user message. -/
theorem failure_isolation (gw : List ChatMsg → Except GatewayErr String)
    (db : DbState) (msgs : List ChatMsg) (input : String) (err : GatewayErr)
    (hne : (pyStrip input).isEmpty = false)
    (hfail : gw (systemMessage :: (msgs ++ [⟨"user", input⟩])) = .error err) :
    load_messages (sendHandler gw db msgs input).db
        = load_messages db ++ [⟨"user", input⟩]
    ∧ (sendHandler gw db msgs input).db = save_message db "user" input
    ∧ (sendHandler gw db msgs input).messages = msgs ++ [⟨"user", input⟩] := by
  simp [sendHandler, hne, hfail, load_messages_save]

theorem failure_isolation_witness :
    load_messages (sendHandler (fun _ => .error .requestError) emptyDb [] "hi").db
        = load_messages emptyDb ++ [⟨"user", "hi"⟩] :=
  (failure_isolation (fun _ => .error .requestError) emptyDb [] "hi"
    .requestError (by decide) rfl).1

/-! ## C4 -/

/-- C4: submitting an input whose `strip()` is empty (empty or
whitespace-only) leaves the store and the conversation unchanged, makes no
gateway call, and only shows the warning. -/
theorem empty_input_guard (gw : List ChatMsg → Except GatewayErr String)
    (db : DbState) (msgs : List ChatMsg) (input : String)
    (h : (pyStrip input).isEmpty = true) :
    (sendHandler gw db msgs input).db = db
    ∧ (sendHandler gw db msgs input).messages = msgs
    ∧ (sendHandler gw db msgs input).transcript = none
    ∧ (sendHandler gw db msgs input).warned = true := by
  simp [sendHandler, h]

theorem empty_input_guard_witness :
    (pyStrip "  \t ").isEmpty = true
    ∧ (sendHandler (fun _ => .ok "yo") emptyDb [helloGreeting] "  \t ").db = emptyDb
    ∧ (sendHandler (fun _ => .ok "yo") emptyDb [helloGreeting] "  \t ").messages
        = [helloGreeting]
    ∧ (sendHandler (fun _ => .ok "yo") emptyDb [helloGreeting] "  \t ").transcript
        = none :=
  have h := empty_input_guard (fun _ => .ok "yo") emptyDb [helloGreeting] "  \t "
    (by decide)
  ⟨by decide, h.1, h.2.1, h.2.2.1⟩

/-! ## C5 -/

/-- C5: after the Clear Chat handler runs, `load_messages` of the resulting
database is empty and the in-memory conversation is exactly the one synthetic
greeting, whose role is assistant. -/
theorem reset_completeness (db : DbState) :
    load_messages (clearChatHandler db).1 = []
    ∧ (clearChatHandler db).2 = [clearedGreeting]
    ∧ (clearChatHandler db).2.length = 1
    ∧ clearedGreeting.role = "assistant" := by
  refine ⟨?_, rfl, rfl, rfl⟩
  simp [clearChatHandler, load_messages]

/-! ## C6 -/

/-- C6: the Export Chat handler is a pure projection of the conversation that
leaves the store untouched; each message renders as its uppercased role, a
colon and space, then the content, with turns separated by a blank line, and
on `[(assistant, "Hi"), (user, "Bye")]` it yields exactly
`"ASSISTANT: Hi\n\nUSER: Bye"`. -/
theorem export_projection (db : DbState) (msgs : List ChatMsg) :
    (exportChatHandler db msgs).1 = db
    ∧ (exportChatHandler db msgs).2 = exportChat msgs
    ∧ exportChat [⟨"assistant", "Hi"⟩, ⟨"user", "Bye"⟩]
        = "ASSISTANT: Hi\n\nUSER: Bye" := by
  refine ⟨rfl, rfl, ?_⟩
  decide

/-! ## C10 -/

/-- C10: the text fed to the session for an uploaded document is the fixed
template followed by Python's `file_text[:4000]`; that slice has length
`min 4000 (length file_text)`, so text longer than 4000 characters is cut to
exactly 4000, and text of at most 4000 characters passes through unchanged. -/
theorem document_truncation (t : String) :
    wrapDocumentText t = "Summarize this text:\n" ++ pySliceTo t 4000
    ∧ (pySliceTo t 4000).length = min 4000 t.length
    ∧ (4000 ≤ t.length → (pySliceTo t 4000).length = 4000)
    ∧ (t.length ≤ 4000 → pySliceTo t 4000 = t) := by
  cases t with
  | mk data =>
      refine ⟨rfl, ?_, ?_, ?_⟩
      · simp [pySliceTo, String.length]
      · intro h
        simp [String.length] at h
        simp [pySliceTo, String.length, Nat.min_eq_left h]
      · intro h
        simp [String.length] at h
        simp [pySliceTo, List.take_of_length_le h]

def longDoc : String := ⟨List.replicate 4001 'a'⟩

theorem longDoc_length : longDoc.length = 4001 := by
  show (List.replicate 4001 'a').length = 4001
  exact List.length_replicate 4001 'a'

theorem document_truncation_witness :
    pySliceTo "abc" 4000 = "abc"
    ∧ (pySliceTo longDoc 4000).length = 4000 :=
  ⟨(document_truncation "abc").2.2.2 (by decide),
   (document_truncation longDoc).2.2.1 (by rw [longDoc_length]; omega)⟩

/-! ## C7 -/

/-- C7: for every non-blank submission, the `messages` argument of the
completion call is exactly the fixed system message followed by the full
ordered in-memory conversation (which now ends with the just-appended user
message); the first element of that transcript has role `system`; and if the
store held no system-role message before the turn, it holds none after it —
the system message is never persisted. -/
theorem transcript_system_first (gw : List ChatMsg → Except GatewayErr String)
    (db : DbState) (msgs : List ChatMsg) (input : String)
    (hne : (pyStrip input).isEmpty = false) :
    (sendHandler gw db msgs input).transcript
        = some (systemMessage :: (msgs ++ [⟨"user", input⟩]))
    ∧ (systemMessage :: (msgs ++ [⟨"user", input⟩])).head? = some systemMessage
    ∧ systemMessage.role = "system"
    ∧ ((load_messages db).all (fun m => m.role != "system") = true →
        (load_messages (sendHandler gw db msgs input).db).all
          (fun m => m.role != "system") = true) := by
  refine ⟨?_, rfl, rfl, ?_⟩
  · cases h : gw (systemMessage :: (msgs ++ [⟨"user", input⟩])) with
    | ok reply => simp [sendHandler, hne, h]
    | error e => simp [sendHandler, hne, h]
  · intro hsys
    cases h : gw (systemMessage :: (msgs ++ [⟨"user", input⟩])) with
    | ok reply =>
        simp [sendHandler, hne, h, load_messages_save, List.all_append]
        simpa using hsys
    | error e =>
        simp [sendHandler, hne, h, load_messages_save, List.all_append]
        simpa using hsys

theorem transcript_system_first_witness :
    (sendHandler (fun _ => .ok "sure") emptyDb [] "hi").transcript
        = some [systemMessage, ⟨"user", "hi"⟩]
    ∧ (load_messages (sendHandler (fun _ => .ok "sure") emptyDb [] "hi").db).all
        (fun m => m.role != "system") = true :=
  ⟨(transcript_system_first (fun _ => .ok "sure") emptyDb [] "hi" (by decide)).1,
   (transcript_system_first (fun _ => .ok "sure") emptyDb [] "hi"
      (by decide)).2.2.2 (by decide)⟩

/-! ## C8

The claim says every store operation releases its connection on every exit
path, including error paths.  The Python bodies have no `try`/`finally` and
no `with` block, so a raise during the SQL statement skips `conn.close()`:
the claim fails, and only the fault-free path releases the connection. -/

/-- C8 counterexample: in `save_message`, a raise at the `c.execute(...)`
statement (position 2, after `sqlite3.connect` and `conn.cursor()` completed)
leaves the connection acquired but never released. -/
theorem conn_release_counterexample :
    opensConn (execStmts save_message_steps (some 2)) = true
    ∧ closesConn (execStmts save_message_steps (some 2)) = false := by
  decide

/-- Any raise strictly inside the body (before the trailing `conn.close()`
has run) leaves the connection unreleased. -/
def leakOnEveryRaise (body : List SqlStep) : Bool :=
  (List.range body.length).all fun k => !(closesConn (execStmts body (some k)))

/-- C8 amended: each store operation (`init_db`, `save_message`,
`load_messages`, the Clear Chat database block) opens its own connection and
closes it on the fault-free path, but a raise at any statement of the body —
in particular an I/O failure during the SQL statement — skips the trailing
`conn.close()`, so on error paths the connection is not released by the
operation. -/
theorem conn_release_amended :
    (opensConn (execStmts init_db_steps none) = true
      ∧ closesConn (execStmts init_db_steps none) = true
      ∧ leakOnEveryRaise init_db_steps = true)
    ∧ (opensConn (execStmts save_message_steps none) = true
      ∧ closesConn (execStmts save_message_steps none) = true
      ∧ leakOnEveryRaise save_message_steps = true)
    ∧ (opensConn (execStmts load_messages_steps none) = true
      ∧ closesConn (execStmts load_messages_steps none) = true
      ∧ leakOnEveryRaise load_messages_steps = true)
    ∧ (opensConn (execStmts clear_chat_steps none) = true
      ∧ closesConn (execStmts clear_chat_steps none) = true
      ∧ leakOnEveryRaise clear_chat_steps = true) := by
  decide

/-! ## C9

The claim says a missing credential raises no error at startup and the UI
still initializes.  The module-level `client = Groq(api_key=GROQ_KEY)` runs
before any page setup, `init_db()` or session bootstrap, and the groq SDK
constructor raises when no key is available — so with `GROQ_API_KEY` unset
the process dies during import and the UI never initializes (making the
sidebar's own "API Key Loaded: ❌ No" indicator unreachable for an unset
key, which marks the eager construction as the slip). -/

/-- C9: with no credential configured, startup fails before the database is
initialized and before the session bootstraps — the error is raised at
startup, not deferred to the first completion call; with any credential
value present, startup succeeds. -/
theorem startup_no_credential :
    startupSequence none emptyDb = .error .groqNoApiKey
    ∧ ∀ key : String, startupSequence (some key) emptyDb
        = .ok ⟨init_db emptyDb, bootstrapMessages (init_db emptyDb)⟩ :=
  ⟨rfl, fun _ => rfl⟩

/-! ## C2

"Identical modulo the synthetic greeting" is made precise by dropping
leading synthetic greetings from both conversations: across all reachable
states, re-bootstrapping from the persisted store reproduces the in-memory
conversation up to that leading greeting, and the bootstrap adds the
greeting only when the loaded store is empty. -/

/-- A synthetic greeting message (the bootstrap one or the Clear Chat one). -/
def isGreeting (m : ChatMsg) : Bool :=
  m == helloGreeting || m == clearedGreeting

/-- Drop the leading synthetic greetings of a conversation. -/
def dropLeadingGreetings (msgs : List ChatMsg) : List ChatMsg :=
  msgs.dropWhile isGreeting

/-- The invariant tying the in-memory conversation to the persisted store: the
conversation is some leading synthetic greetings followed by exactly the
loaded store contents. -/
def GreetInv (s : AppState) : Prop :=
  ∃ g, g.all isGreeting = true ∧ s.messages = g ++ load_messages s.db

theorem dropWhile_append_of_all {p : ChatMsg → Bool} (g l : List ChatMsg)
    (h : g.all p = true) : (g ++ l).dropWhile p = l.dropWhile p := by
  induction g with
  | nil => rfl
  | cons a g ih =>
      rw [List.all_cons, Bool.and_eq_true] at h
      rw [List.cons_append, List.dropWhile_cons, h.1]
      exact ih h.2

theorem greetInv_start (db0 : DbState) :
    GreetInv ⟨init_db db0, bootstrapMessages (init_db db0)⟩ := by
  cases he : (load_messages (init_db db0)).isEmpty with
  | true =>
      refine ⟨[helloGreeting], by decide, ?_⟩
      have hload : load_messages (init_db db0) = [] := by
        simpa [List.isEmpty_iff] using he
      simp [bootstrapMessages, hload]
  | false =>
      refine ⟨[], rfl, ?_⟩
      simp [bootstrapMessages, he]

theorem greetInv_step (s : AppState) (ev : UiEvent) (h : GreetInv s) :
    GreetInv (applyEvent s ev) := by
  obtain ⟨g, hg, hm⟩ := h
  cases ev with
  | send outcome input =>
      cases hb : (pyStrip input).isEmpty with
      | true =>
          exact ⟨g, hg, by simpa [applyEvent, sendHandler, hb] using hm⟩
      | false =>
          cases outcome with
          | ok reply =>
              refine ⟨g, hg, ?_⟩
              simp [applyEvent, sendHandler, hb, load_messages_save, hm]
          | error e =>
              refine ⟨g, hg, ?_⟩
              simp [applyEvent, sendHandler, hb, load_messages_save, hm]
  | clearChat =>
      refine ⟨[clearedGreeting], by decide, ?_⟩
      simp [applyEvent, clearChatHandler, load_messages]
  | exportChatBtn =>
      exact ⟨g, hg, by simpa [applyEvent, exportChatHandler] using hm⟩

theorem runEvents_greetInv (db0 : DbState) (evs : List UiEvent) :
    GreetInv (runEvents db0 evs) := by
  have hfold : ∀ s : AppState, GreetInv s → GreetInv (evs.foldl applyEvent s) := by
    induction evs with
    | nil => intro s hs; exact hs
    | cons e es ih => intro s hs; exact ih _ (greetInv_step s e hs)
  exact hfold _ (greetInv_start db0)

/-- C2: for every persisted store contents and every sequence of UI events,
re-instantiating the session from the loaded store (a simulated restart)
reproduces the in-memory conversation up to the leading synthetic greeting;
the greeting is seeded only when the loaded store is empty, so it is never
duplicated when the store is non-empty — a non-empty store re-bootstraps to
exactly its own contents. -/
theorem reload_idempotence (db0 : DbState) (evs : List UiEvent) :
    dropLeadingGreetings (bootstrapMessages (runEvents db0 evs).db)
        = dropLeadingGreetings (runEvents db0 evs).messages
    ∧ ((load_messages (runEvents db0 evs).db).isEmpty = false →
        bootstrapMessages (runEvents db0 evs).db
          = load_messages (runEvents db0 evs).db)
    ∧ ((load_messages (runEvents db0 evs).db).isEmpty = true →
        bootstrapMessages (runEvents db0 evs).db = [helloGreeting]) := by
  obtain ⟨g, hg, hm⟩ := runEvents_greetInv db0 evs
  refine ⟨?_, fun he => by simp [bootstrapMessages, he], fun he => by
    have hload : load_messages (runEvents db0 evs).db = [] := by
      simpa [List.isEmpty_iff] using he
    simp [bootstrapMessages, hload]⟩
  cases he : (load_messages (runEvents db0 evs).db).isEmpty with
  | true =>
      have hload : load_messages (runEvents db0 evs).db = [] := by
        simpa [List.isEmpty_iff] using he
      rw [hm, hload, List.append_nil]
      have h1 : dropLeadingGreetings (bootstrapMessages (runEvents db0 evs).db)
          = [] := by
        simp [bootstrapMessages, hload, dropLeadingGreetings, List.dropWhile,
          isGreeting]
      have h2 : dropLeadingGreetings g = [] := by
        have := dropWhile_append_of_all g [] hg
        simpa [dropLeadingGreetings, List.append_nil] using this
      rw [h1, h2]
  | false =>
      have hboot : bootstrapMessages (runEvents db0 evs).db
          = load_messages (runEvents db0 evs).db := by
        simp [bootstrapMessages, he]
      rw [hboot, hm, dropLeadingGreetings, dropLeadingGreetings,
        dropWhile_append_of_all g _ hg]

theorem reload_idempotence_witness :
    bootstrapMessages (runEvents emptyDb []).db = [helloGreeting]
    ∧ bootstrapMessages
        (runEvents emptyDb [.send (.ok "Hello there!") "hi"]).db
      = load_messages (runEvents emptyDb [.send (.ok "Hello there!") "hi"]).db :=
  ⟨(reload_idempotence emptyDb []).2.2 (by decide),
   (reload_idempotence emptyDb [.send (.ok "Hello there!") "hi"]).2.1
     (by decide)⟩
